import Mathlib

/-!
Verification of the email-monitoring pipeline in `src/app.py`
(`gmail_routing_ai`).

The development shallowly embeds the program's pure logic:

* `pyStrip` — Python `str.strip()`.
* `urlsafeB64decode` / `utf8Decode` — `base64.urlsafe_b64decode(...).decode("utf-8")`.
* `jsonParse` — `json.loads` on the model's response text.
* `extract_email_data` — the parse step of `extract_email_data` (app.py:82-83),
  parameterised by the model collaborator's response text.
* `update_spreadsheet` — the append-position computation and single range
  update of `update_spreadsheet` (app.py:93-132), parameterised by the rows the
  read call returned.
* `tick` — one iteration of the `while True` loop of `monitor_emails`
  (app.py:157-222), parameterised by the collaborator responses observed during
  that iteration (`TickEnv`), acting on the loop's state (`LoopState`): the
  in-memory `last_message_id` variable and the persistent
  `last_processed.txt` content.  The iteration's externally visible calls are
  recorded as a list of `Event`s.

External collaborators (Gmail, Sheets, OpenAI, the filesystem) only enter
through the data they return, which is how the source consumes them.
-/

/-- Python exception kinds that the pipeline code can raise.  All of them are
caught by the `except Exception` handler of the polling loop (app.py:220). -/
inductive PyErr where
  | httpError
  | stopIteration
  | keyError (k : String)
  | indexError
  | binasciiError
  | unicodeDecodeError
  | jsonDecodeError
  | typeError
  deriving DecidableEq, Repr

/-- Characters removed by Python `str.strip()` (ASCII whitespace; the cells in
the claims are ASCII). -/
def isPyWhitespace (c : Char) : Bool :=
  c = ' ' || c = '\t' || c = '\n' || c = '\r' || c = '\x0b' || c = '\x0c'

/-- Python `s.strip()`: drop leading and trailing whitespace. -/
def pyStrip (s : String) : String :=
  String.mk (((s.data.dropWhile isPyWhitespace).reverse.dropWhile isPyWhitespace).reverse)

/-- Value of one base64 alphabet character.  `urlsafe_b64decode` first
translates `-`/`_` to `+`/`/`, so both alphabets decode. -/
def b64Value (c : Char) : Option Nat :=
  if 'A' ≤ c ∧ c ≤ 'Z' then some (c.toNat - 'A'.toNat)
  else if 'a' ≤ c ∧ c ≤ 'z' then some (c.toNat - 'a'.toNat + 26)
  else if '0' ≤ c ∧ c ≤ '9' then some (c.toNat - '0'.toNat + 52)
  else if c = '+' ∨ c = '-' then some 62
  else if c = '/' ∨ c = '_' then some 63
  else none

/-- Decode base64 quadruples into bytes; `=` padding is only legal at the very
end.  A leftover group of the wrong size is a `binascii.Error`. -/
def b64DecodeGroups : List Char → Option (List Nat)
  | [] => some []
  | a :: b :: c :: d :: rest =>
    match b64Value a, b64Value b with
    | some va, some vb =>
      if c = '=' then
        if d = '=' ∧ rest = [] then some [va * 4 + vb / 16] else none
      else
        match b64Value c with
        | some vc =>
          if d = '=' then
            if rest = [] then some [va * 4 + vb / 16, (vb % 16) * 16 + vc / 4] else none
          else
            match b64Value d with
            | some vd =>
              (b64DecodeGroups rest).map
                (fun bs =>
                  (va * 4 + vb / 16) :: ((vb % 16) * 16 + vc / 4) :: ((vc % 4) * 64 + vd) :: bs)
            | none => none
        | none => none
    | _, _ => none
  | _ => none

/-- `base64.urlsafe_b64decode` on a `str` argument: the input must be ASCII,
non-alphabet characters are discarded, and the remaining length must be a
multiple of four. -/
def urlsafeB64decode (s : String) : Option (List Nat) :=
  if s.data.all (fun c => c.toNat < 128) then
    b64DecodeGroups (s.data.filter (fun c => (b64Value c).isSome ∨ c = '='))
  else
    none

/-- Is `b` a UTF-8 continuation byte (`10xxxxxx`)? -/
def isCont (b : Nat) : Bool := 0x80 ≤ b ∧ b < 0xC0

/-- Strict UTF-8 decoding of a byte list, as `bytes.decode("utf-8")`:
rejects stray continuation bytes, overlong forms, surrogates and
out-of-range code points. -/
def utf8Decode : List Nat → Option (List Char)
  | [] => some []
  | b :: rest =>
    if b < 0x80 then
      (utf8Decode rest).map (fun cs => Char.ofNat b :: cs)
    else if b < 0xC2 then
      none
    else if b < 0xE0 then
      match rest with
      | b2 :: rest2 =>
        if isCont b2 then
          (utf8Decode rest2).map (fun cs => Char.ofNat ((b - 0xC0) * 0x40 + (b2 - 0x80)) :: cs)
        else none
      | [] => none
    else if b < 0xF0 then
      match rest with
      | b2 :: b3 :: rest3 =>
        if isCont b2 ∧ isCont b3 ∧ (b ≠ 0xE0 ∨ 0xA0 ≤ b2) ∧ (b ≠ 0xED ∨ b2 < 0xA0) then
          (utf8Decode rest3).map
            (fun cs => Char.ofNat ((b - 0xE0) * 0x1000 + (b2 - 0x80) * 0x40 + (b3 - 0x80)) :: cs)
        else none
      | _ => none
    else if b < 0xF5 then
      match rest with
      | b2 :: b3 :: b4 :: rest4 =>
        if isCont b2 ∧ isCont b3 ∧ isCont b4 ∧ (b ≠ 0xF0 ∨ 0x90 ≤ b2) ∧ (b ≠ 0xF4 ∨ b2 < 0x90) then
          (utf8Decode rest4).map
            (fun cs =>
              Char.ofNat ((b - 0xF0) * 0x40000 + (b2 - 0x80) * 0x1000
                + (b3 - 0x80) * 0x40 + (b4 - 0x80)) :: cs)
        else none
      | _ => none
    else
      none

/-- `base64.urlsafe_b64decode(data).decode("utf-8")` (app.py:188-190 and
194-196), with the two possible exceptions distinguished. -/
def b64urlUtf8 (s : String) : Except PyErr String :=
  match urlsafeB64decode s with
  | none => .error .binasciiError
  | some bytes =>
    match utf8Decode bytes with
    | none => .error .unicodeDecodeError
    | some cs => .ok (String.mk cs)

/-- JSON values as produced by `json.loads`.  Numbers keep their source text
(the pipeline never consumes numeric fields); object fields keep insertion
order, and lookups take the last binding of a key, as a Python dict built by
the decoder does. -/
inductive JValue where
  | null
  | bool (b : Bool)
  | num (raw : String)
  | str (s : String)
  | arr (elems : List JValue)
  | obj (fields : List (String × JValue))
  deriving Repr

/-- Whitespace skipped between JSON tokens by `json.loads`. -/
def jsonSkipWs : List Char → List Char
  | [] => []
  | c :: cs => if c = ' ' ∨ c = '\t' ∨ c = '\n' ∨ c = '\r' then jsonSkipWs cs else c :: cs

/-- Hex digit value, for `\uXXXX` escapes. -/
def hexVal (c : Char) : Option Nat :=
  if '0' ≤ c ∧ c ≤ '9' then some (c.toNat - '0'.toNat)
  else if 'a' ≤ c ∧ c ≤ 'f' then some (c.toNat - 'a'.toNat + 10)
  else if 'A' ≤ c ∧ c ≤ 'F' then some (c.toNat - 'A'.toNat + 10)
  else none

/-- Body of a JSON string after the opening quote: returns the decoded
characters and the remaining input after the closing quote.  Control
characters must be escaped; `\uXXXX` surrogate pairs are combined.  (Lone
surrogates, which Python can hold in a `str` but Lean's `Char` cannot, are
rejected; no claim exercises them.) -/
def parseStringBody : List Char → Option (List Char × List Char)
  | [] => none
  | '"' :: rest => some ([], rest)
  | '\\' :: rest =>
    match rest with
    | [] => none
    | 'u' :: h1 :: h2 :: h3 :: h4 :: rest2 =>
      match hexVal h1, hexVal h2, hexVal h3, hexVal h4 with
      | some v1, some v2, some v3, some v4 =>
        let n := ((v1 * 16 + v2) * 16 + v3) * 16 + v4
        if n < 0xD800 ∨ 0xE000 ≤ n then
          (parseStringBody rest2).map (fun p => (Char.ofNat n :: p.1, p.2))
        else if n < 0xDC00 then
          match rest2 with
          | '\\' :: 'u' :: g1 :: g2 :: g3 :: g4 :: rest3 =>
            match hexVal g1, hexVal g2, hexVal g3, hexVal g4 with
            | some w1, some w2, some w3, some w4 =>
              let m := ((w1 * 16 + w2) * 16 + w3) * 16 + w4
              if 0xDC00 ≤ m ∧ m < 0xE000 then
                (parseStringBody rest3).map
                  (fun p => (Char.ofNat (0x10000 + (n - 0xD800) * 0x400 + (m - 0xDC00)) :: p.1, p.2))
              else none
            | _, _, _, _ => none
          | _ => none
        else none
      | _, _, _, _ => none
    | e :: rest2 =>
      let cont (c : Char) : Option (List Char × List Char) :=
        (parseStringBody rest2).map (fun p => (c :: p.1, p.2))
      if e = '"' then cont '"'
      else if e = '\\' then cont '\\'
      else if e = '/' then cont '/'
      else if e = 'b' then cont '\x08'
      else if e = 'f' then cont '\x0c'
      else if e = 'n' then cont '\n'
      else if e = 'r' then cont '\r'
      else if e = 't' then cont '\t'
      else none
  | c :: rest =>
    if c.toNat < 0x20 then none
    else (parseStringBody rest).map (fun p => (c :: p.1, p.2))

/-- Integer part of a JSON number (no leading zeros). -/
def parseIntPart : List Char → Option (List Char × List Char)
  | [] => none
  | c :: rest =>
    if c = '0' then some ([c], rest)
    else if '1' ≤ c ∧ c ≤ '9' then
      some (c :: rest.takeWhile Char.isDigit, rest.dropWhile Char.isDigit)
    else none

/-- Optional fraction part of a JSON number. -/
def parseFracPart : List Char → Option (List Char × List Char)
  | '.' :: rest =>
    let ds := rest.takeWhile Char.isDigit
    if ds = [] then none else some ('.' :: ds, rest.dropWhile Char.isDigit)
  | l => some ([], l)

/-- Optional exponent part of a JSON number. -/
def parseExpPart (l : List Char) : Option (List Char × List Char) :=
  match l with
  | e :: rest =>
    if e = 'e' ∨ e = 'E' then
      let (sgn, rest2) :=
        match rest with
        | s :: r => if s = '+' ∨ s = '-' then ([s], r) else (([] : List Char), s :: r)
        | [] => ([], [])
      let ds := rest2.takeWhile Char.isDigit
      if ds = [] then none else some (e :: sgn ++ ds, rest2.dropWhile Char.isDigit)
    else some ([], l)
  | [] => some ([], l)

/-- A JSON numeral: optional minus, integer, fraction, exponent; the raw text
is kept. -/
def parseNumber (l : List Char) : Option (List Char × List Char) :=
  let core (l2 : List Char) : Option (List Char × List Char) :=
    match parseIntPart l2 with
    | none => none
    | some (ip, r1) =>
      match parseFracPart r1 with
      | none => none
      | some (fp, r2) =>
        match parseExpPart r2 with
        | none => none
        | some (ep, r3) => some (ip ++ fp ++ ep, r3)
  match l with
  | '-' :: rest => (core rest).map (fun p => ('-' :: p.1, p.2))
  | _ => core l

mutual

/-- One JSON value, starting at a non-whitespace character; fuel bounds
nesting depth. -/
def parseValue : Nat → List Char → Option (JValue × List Char)
  | 0, _ => none
  | Nat.succ fuel, l =>
    match l with
    | [] => none
    | c :: rest =>
      if c = '"' then
        (parseStringBody rest).map (fun p => (.str (String.mk p.1), p.2))
      else if c = '\x7b' then
        match jsonSkipWs rest with
        | '\x7d' :: r2 => some (.obj [], r2)
        | r1 => (parseMembers fuel r1).map (fun p => (.obj p.1, p.2))
      else if c = '[' then
        match jsonSkipWs rest with
        | ']' :: r2 => some (.arr [], r2)
        | r1 => (parseElems fuel r1).map (fun p => (.arr p.1, p.2))
      else if c = 't' then
        match rest with
        | 'r' :: 'u' :: 'e' :: r => some (.bool true, r)
        | _ => none
      else if c = 'f' then
        match rest with
        | 'a' :: 'l' :: 's' :: 'e' :: r => some (.bool false, r)
        | _ => none
      else if c = 'n' then
        match rest with
        | 'u' :: 'l' :: 'l' :: r => some (.null, r)
        | _ => none
      else
        (parseNumber (c :: rest)).map (fun p => (.num (String.mk p.1), p.2))

/-- Non-empty member list of a JSON object, starting at the first key. -/
def parseMembers : Nat → List Char → Option (List (String × JValue) × List Char)
  | 0, _ => none
  | Nat.succ fuel, l =>
    match l with
    | '"' :: rest =>
      match parseStringBody rest with
      | none => none
      | some (k, r1) =>
        match jsonSkipWs r1 with
        | ':' :: r2 =>
          match parseValue fuel (jsonSkipWs r2) with
          | none => none
          | some (v, r3) =>
            match jsonSkipWs r3 with
            | ',' :: r4 =>
              (parseMembers fuel (jsonSkipWs r4)).map
                (fun p => ((String.mk k, v) :: p.1, p.2))
            | '\x7d' :: r4 => some ([(String.mk k, v)], r4)
            | _ => none
        | _ => none
    | _ => none

/-- Non-empty element list of a JSON array, starting at the first element. -/
def parseElems : Nat → List Char → Option (List JValue × List Char)
  | 0, _ => none
  | Nat.succ fuel, l =>
    match parseValue fuel l with
    | none => none
    | some (v, r1) =>
      match jsonSkipWs r1 with
      | ',' :: r2 => (parseElems fuel (jsonSkipWs r2)).map (fun p => (v :: p.1, p.2))
      | ']' :: r2 => some ([v], r2)
      | _ => none

end

/-- `json.loads`: one JSON document, surrounded by optional whitespace. -/
def jsonParse (s : String) : Option JValue :=
  match parseValue (s.length + 1) (jsonSkipWs s.data) with
  | some (v, rest) => if jsonSkipWs rest = [] then some v else none
  | none => none

/-- Python subscript `d[k]` on a decoded JSON value: a `dict` yields the last
binding of `k` or raises `KeyError`; any non-dict value raises `TypeError`
under a string index. -/
def jsonGet (v : JValue) (k : String) : Except PyErr JValue :=
  match v with
  | .obj fields =>
    match fields.reverse.find? (fun f => f.1 = k) with
    | some f => .ok f.2
    | none => .error (.keyError k)
  | _ => .error .typeError

/-- The parse step of `extract_email_data` (app.py:82-83), as a function of the
model collaborator's response text: `json.loads` the response and return the
result unchanged — no key validation is performed.  A `json.JSONDecodeError`
is logged and re-raised (app.py:85-88). -/
def extract_email_data (responseText : String) : Except PyErr JValue :=
  match jsonParse responseText with
  | some v => .ok v
  | none => .error .jsonDecodeError

/-- The `body` object of a Gmail payload or part: `data`, when present, holds
the base64url-encoded content (`'data' in message['payload']['body']`,
app.py:187). -/
structure MsgBody where
  data : Option String
  deriving Repr

/-- One entry of `message['payload']['parts']`. -/
structure MsgPart where
  body : MsgBody
  deriving Repr

/-- `message['payload']` of a full-format Gmail message: headers as ordered
name/value pairs, a direct body, and optionally a `parts` list (absent key
modelled as `none`). -/
structure MsgPayload where
  headers : List (String × String)
  body : MsgBody
  parts : Option (List MsgPart)
  deriving Repr

/-- Python `str.lower()` on one character (ASCII range; header names are
ASCII). -/
def pyLowerChar (c : Char) : Char :=
  if 'A' ≤ c ∧ c ≤ 'Z' then Char.ofNat (c.toNat + 32) else c

/-- Python `str.lower()`. -/
def pyLower (s : String) : String :=
  String.mk (s.data.map pyLowerChar)

/-- The recipient lookup (app.py:180-183): first header whose lowercased name
is `to`; an exhausted generator raises `StopIteration`. -/
def findToHeader (headers : List (String × String)) : Option String :=
  (headers.find? (fun h => pyLower h.1 = "to")).map (fun h => h.2)

/-- The body-extraction conditional (app.py:187-196): decode the direct
payload if present, else decode the first part's payload.  A missing `parts`
key raises `KeyError`, an empty parts list raises `IndexError` at `parts[0]`,
and a part without `data` raises `KeyError`. -/
def extractBodyText (p : MsgPayload) : Except PyErr String :=
  match p.body.data with
  | some d => b64urlUtf8 d
  | none =>
    match p.parts with
    | none => .error (.keyError "parts")
    | some ps =>
      match ps with
      | [] => .error .indexError
      | part :: _ =>
        match part.body.data with
        | none => .error (.keyError "data")
        | some d => b64urlUtf8 d

/-- Is a sheet row's first cell populated?  Python's
`if row and row[0].strip():` (app.py:108): the row list must be non-empty and
its first cell non-whitespace. -/
def firstCellNonEmpty (row : List String) : Bool :=
  match row with
  | [] => false
  | c :: _ => pyStrip c ≠ ""

/-- The scan of `update_spreadsheet` (app.py:104-111): starting from 1 (the
header row), advance past each leading row whose first column is non-empty;
stop at the first row that fails the test or at the end of the data. -/
def nextRowFrom (acc : Nat) : List (List String) → Nat
  | [] => acc
  | row :: rest => if firstCellNonEmpty row then nextRowFrom (acc + 1) rest else acc

/-- `next_row` as computed by `update_spreadsheet` from the rows the read
call returned. -/
def next_row (currentValues : List (List String)) : Nat :=
  nextRowFrom 1 currentValues

/-- The single range update issued by `update_spreadsheet` (app.py:116-126):
the target range string and the values written there in one call. -/
structure SheetUpdate where
  range : String
  targetRow : Nat
  values : List (List JValue)
  deriving Repr

/-- `update_spreadsheet` (app.py:93-126) as a function of the rows returned by
the read of `Hold Grid!A:F` and of the values to append: computes the next
empty row and issues one update over `Hold Grid!A{n}:E{n}`. -/
def update_spreadsheet (currentValues : List (List String)) (values : List (List JValue)) :
    SheetUpdate :=
  let n := next_row currentValues
  { range := "Hold Grid!A" ++ toString n ++ ":E" ++ toString n
    targetRow := n
    values := values }

/-- State carried across loop iterations of `monitor_emails`: the in-memory
`last_message_id` variable (app.py:154, 168) and the content of the
persistent checkpoint file `last_processed.txt` (`none` when absent). -/
structure LoopState where
  lastMessageId : Option String
  savedId : Option String
  deriving DecidableEq, Repr

/-- External calls a single loop iteration performs, beyond the initial
message-id listing. -/
inductive Event where
  | fetchFull (id : String)
  | modelCall
  | sheetRead
  | sheetWrite (w : SheetUpdate)
  | checkpointSave (id : String)
  deriving Repr

/-- The collaborator responses one iteration observes: the id of the latest
sent message (`none` when `messages` is empty), the full-format message for
that id, the model's chat-completion text, the rows of the sheet read, and
the outcome of the sheet update call. -/
structure TickEnv where
  listResult : Option String
  fetchResult : Except PyErr MsgPayload
  modelResponse : Except PyErr String
  readResult : Except PyErr (List (List String))
  writeResult : Except PyErr Unit
  deriving Repr

/-- One iteration of the `while True` loop of `monitor_emails`
(app.py:157-222).  Mirrors the source line by line: when a new id is seen,
`last_message_id` is reassigned immediately (app.py:168, before any
processing); the persistent checkpoint is rewritten only by
`save_last_processed_id` after a successful sheet update (app.py:216).  Any
exception is caught by the iteration's handler (app.py:220-222), which only
logs and sleeps, leaving the state as it was at the point of the raise. -/
def tick (env : TickEnv) (s : LoopState) : LoopState × List Event :=
  match env.listResult with
  | none => (s, [])
  | some latestId =>
    if s.lastMessageId = some latestId then (s, [])
    else
      let s1 : LoopState := { s with lastMessageId := some latestId }
      match env.fetchResult with
      | .error _ => (s1, [.fetchFull latestId])
      | .ok msg =>
        match findToHeader msg.headers with
        | none => (s1, [.fetchFull latestId])
        | some to_email =>
          match extractBodyText msg with
          | .error _ => (s1, [.fetchFull latestId])
          | .ok _email_content =>
            match env.modelResponse with
            | .error _ => (s1, [.fetchFull latestId, .modelCall])
            | .ok responseText =>
              match extract_email_data responseText with
              | .error _ => (s1, [.fetchFull latestId, .modelCall])
              | .ok extracted =>
                match jsonGet extracted "city" with
                | .error _ => (s1, [.fetchFull latestId, .modelCall])
                | .ok city =>
                  match jsonGet extracted "venue" with
                  | .error _ => (s1, [.fetchFull latestId, .modelCall])
                  | .ok venue =>
                    match jsonGet extracted "dates" with
                    | .error _ => (s1, [.fetchFull latestId, .modelCall])
                    | .ok dates =>
                      let row_data : List (List JValue) :=
                        [[.str to_email, city, venue, dates, .str "CONTACTED"]]
                      match env.readResult with
                      | .error _ => (s1, [.fetchFull latestId, .modelCall, .sheetRead])
                      | .ok currentValues =>
                        let w := update_spreadsheet currentValues row_data
                        match env.writeResult with
                        | .error _ =>
                          (s1, [.fetchFull latestId, .modelCall, .sheetRead, .sheetWrite w])
                        | .ok _ =>
                          ({ s1 with savedId := some latestId },
                           [.fetchFull latestId, .modelCall, .sheetRead, .sheetWrite w,
                            .checkpointSave latestId])

/-- A tick environment in which every collaborator call succeeds: latest sent
id `msg_2`, a message whose body decodes to `hi`, a complete model
response. -/
def okTickEnv : TickEnv :=
  { listResult := some "msg_2"
    fetchResult := .ok ⟨[("To", "x@y.com")], ⟨some "aGk="⟩, none⟩
    modelResponse := .ok "\x7b\"email\":\"x@y.com\",\"city\":\"c\",\"venue\":\"v\",\"dates\":\"d\"\x7d"
    readResult := .ok [["Email"]]
    writeResult := .ok () }

/-- `okTickEnv` with the sheet update call failing (an HTTP error from the
Sheets collaborator). -/
def failingAppendEnv : TickEnv :=
  { okTickEnv with writeResult := .error .httpError }

/-- A syntactically valid model response that lacks the `dates` key. -/
def respNoDates : String :=
  "\x7b\"email\":\"client@example.com\",\"city\":\"Austin\",\"venue\":\"TBD\"\x7d"

/-- `okTickEnv` with `respNoDates` as the model's reply. -/
def respNoDatesEnv : TickEnv :=
  { okTickEnv with modelResponse := .ok respNoDates }

/-- A model response identical to the one in `okTickEnv` except that the
`email` key is absent. -/
def respNoEmailField : String :=
  "\x7b\"city\":\"c\",\"venue\":\"v\",\"dates\":\"d\"\x7d"

/-- The message of the end-to-end scenario: to-header `client@example.com`,
direct body decoding to `Hello, need venue in Austin for Oct 1-3`. -/
def scenarioMsg : MsgPayload :=
  ⟨[("To", "client@example.com")],
   ⟨some "SGVsbG8sIG5lZWQgdmVudWUgaW4gQXVzdGluIGZvciBPY3QgMS0z"⟩, none⟩

/-- The collaborator responses of the end-to-end scenario: latest id `msg_2`,
`scenarioMsg`, the model's four-field JSON reply, a sheet holding only its
header row, and a successful update call. -/
def scenarioEnv : TickEnv :=
  { listResult := some "msg_2"
    fetchResult := .ok scenarioMsg
    modelResponse := .ok "\x7b\"email\":\"client@example.com\",\"city\":\"Austin\",\"venue\":\"TBD\",\"dates\":\"Oct 1-3\"\x7d"
    readResult := .ok [["Email", "City", "Venue", "Dates", "Status"]]
    writeResult := .ok () }

/-- The file contents observable if the process crashes at any point of
`save_last_processed_id` (app.py:141-143).  The source opens
`last_processed.txt` with mode `w` — truncating it in place — and then writes
the identifier; so a crash can expose the old content (before the open), the
empty file (right after the truncating open), or any prefix of the new
content (a partially flushed write), the last state being the full new
content. -/
def saveFileStates (old new : String) : List String :=
  old :: (List.range (new.length + 1)).map (fun k => String.mk (new.data.take k))

theorem nextRowFrom_nil (acc : Nat) : nextRowFrom acc [] = acc := rfl

theorem nextRowFrom_cons (acc : Nat) (row : List String) (rest : List (List String)) :
    nextRowFrom acc (row :: rest)
      = if firstCellNonEmpty row then nextRowFrom (acc + 1) rest else acc := rfl

theorem nextRowFrom_eq_takeWhile (acc : Nat) (rows : List (List String)) :
    nextRowFrom acc rows = acc + (rows.takeWhile firstCellNonEmpty).length := by
  induction rows generalizing acc with
  | nil => simp [nextRowFrom_nil]
  | cons r rs ih =>
    by_cases h : firstCellNonEmpty r
    · rw [nextRowFrom_cons, if_pos h, ih, List.takeWhile_cons, if_pos h]
      simp; omega
    · rw [nextRowFrom_cons, if_neg h, List.takeWhile_cons,
        if_neg h]
      simp

theorem nextRowFrom_append_full (acc : Nat) (dataRows tailRows : List (List String))
    (h : ∀ r ∈ dataRows, firstCellNonEmpty r = true) :
    nextRowFrom acc (dataRows ++ tailRows) = nextRowFrom (acc + dataRows.length) tailRows := by
  induction dataRows generalizing acc with
  | nil => simp
  | cons r rs ih =>
    have hr : firstCellNonEmpty r = true := h r (List.mem_cons_self r rs)
    rw [List.cons_append, nextRowFrom_cons, if_pos hr,
      ih (acc + 1) (fun x hx => h x (List.mem_cons_of_mem _ hx))]
    congr 1
    simp
    omega

theorem nextRowFrom_stopped (acc : Nat) (tailRows : List (List String))
    (h : ∀ r ∈ tailRows, firstCellNonEmpty r = false) :
    nextRowFrom acc tailRows = acc := by
  cases tailRows with
  | nil => rfl
  | cons r rs => simp [nextRowFrom_cons, h r (List.mem_cons_self r rs)]

/-- C10: when the read of the tracking range returns no rows at all, the
append targets row 1 — the header row's position, not row 2 — and in general
the computed target row is 1 plus the number of leading rows (header
included) whose first cell is non-empty. -/
theorem c10_empty_sheet_targets_row_one :
    (∀ vals : List (List JValue),
      update_spreadsheet [] vals
        = { range := "Hold Grid!A1:E1", targetRow := 1, values := vals }) ∧
    ∀ (rows : List (List String)) (vals : List (List JValue)),
      (update_spreadsheet rows vals).targetRow
        = 1 + (rows.takeWhile firstCellNonEmpty).length := by
  constructor
  · intro vals; rfl
  · intro rows vals
    simp [update_spreadsheet, next_row, nextRowFrom_eq_takeWhile]

/-- C3: for a read result consisting of a header row with non-empty first
cell, N data rows with non-empty first cells, and then only rows with empty
first cells, the append target is row N+2 and the 5 row values are written to
exactly that row in a single update call. -/
theorem c3_append_position (hdr : List String) (dataRows tailRows : List (List String))
    (v1 v2 v3 v4 v5 : JValue)
    (hhdr : firstCellNonEmpty hdr = true)
    (hdata : ∀ r ∈ dataRows, firstCellNonEmpty r = true)
    (htail : ∀ r ∈ tailRows, firstCellNonEmpty r = false) :
    update_spreadsheet (hdr :: (dataRows ++ tailRows)) [[v1, v2, v3, v4, v5]]
      = { range := "Hold Grid!A" ++ toString (dataRows.length + 2) ++ ":E"
            ++ toString (dataRows.length + 2),
          targetRow := dataRows.length + 2,
          values := [[v1, v2, v3, v4, v5]] } := by
  have h1 : next_row (hdr :: (dataRows ++ tailRows)) = dataRows.length + 2 := by
    rw [next_row, nextRowFrom_cons, if_pos hhdr,
      nextRowFrom_append_full _ _ _ hdata, nextRowFrom_stopped _ _ htail]
    omega
  simp [update_spreadsheet, h1]

/-- Witness for C3 at a concrete sheet: header plus two data rows, then an
empty-celled row and an empty row; target is row 4. -/
theorem c3_append_position_witness :
    update_spreadsheet (["Email", "City"] :: ([["a@x", "Austin"], ["b@y", "Boston"]] ++ [[""], []]))
      [[JValue.str "e", JValue.str "c", JValue.str "v", JValue.str "d", JValue.str "CONTACTED"]]
      = { range := "Hold Grid!A4:E4", targetRow := 4,
          values := [[JValue.str "e", JValue.str "c", JValue.str "v", JValue.str "d",
            JValue.str "CONTACTED"]] } := by
  exact c3_append_position _ _ _ _ _ _ _ _ (by decide)
    (by intro r hr; fin_cases hr <;> decide) (by intro r hr; fin_cases hr <;> decide)

/-- C7: a message with direct body payload `p` decodes to the same plain text
as a multi-part message whose first part's payload is `p`, whatever the later
parts; both go through base64url decoding followed by UTF-8 decoding. -/
theorem c7_decode_direct_eq_multipart (p : String) (h1 h2 : List (String × String))
    (prts : Option (List MsgPart)) (rest : List MsgPart) :
    extractBodyText ⟨h1, ⟨some p⟩, prts⟩
      = extractBodyText ⟨h2, ⟨none⟩, some (⟨⟨some p⟩⟩ :: rest)⟩ ∧
    extractBodyText ⟨h1, ⟨some p⟩, prts⟩ = b64urlUtf8 p :=
  ⟨rfl, rfl⟩

/-- C6: a tick whose latest sent message id equals the stored checkpoint — or
whose listing returns no messages — is a no-op: no full fetch, no model call,
no sheet read or write, no checkpoint change (the in-memory id agreeing with
the persisted checkpoint, as at startup, app.py:154). -/
theorem c6_noop_tick (env : TickEnv) (s : LoopState)
    (hsync : s.lastMessageId = s.savedId)
    (hlatest : env.listResult = none ∨ env.listResult = s.savedId) :
    tick env s = (s, []) := by
  rcases hlatest with h | h
  · simp [tick, h]
  · cases hsv : s.savedId with
    | none => rw [hsv] at h; simp [tick, h]
    | some c =>
      rw [hsv] at h
      simp [tick, h, hsync, hsv]

/-- Witness for C6: checkpoint and latest id both `msg_1`; every other
collaborator call would fail, yet none is made and the state is unchanged. -/
theorem c6_noop_tick_witness :
    tick { listResult := some "msg_1", fetchResult := .error .httpError,
           modelResponse := .error .httpError, readResult := .error .httpError,
           writeResult := .error .httpError }
      { lastMessageId := some "msg_1", savedId := some "msg_1" }
      = ({ lastMessageId := some "msg_1", savedId := some "msg_1" }, []) :=
  c6_noop_tick _ _ rfl (Or.inr rfl)

/-- C5: within a tick, the persistent checkpoint changes — or a checkpoint
save call occurs — only when the sheet update call has succeeded, and then
the save strictly follows the row write; a failed append leaves the persisted
checkpoint untouched. -/
theorem c5_checkpoint_only_after_append (env : TickEnv) (s : LoopState)
    (h : (tick env s).1.savedId ≠ s.savedId
      ∨ ∃ id, Event.checkpointSave id ∈ (tick env s).2) :
    env.writeResult = .ok () ∧
    ∃ pre w id, (tick env s).2 = pre ++ [Event.sheetWrite w, Event.checkpointSave id] := by
  rcases env with ⟨lr, fr, mr, rr, wr⟩
  cases lr with
  | none => simp [tick] at h
  | some latestId =>
    by_cases hskip : s.lastMessageId = some latestId
    · simp [tick, hskip] at h
    · cases fr with
      | error e => simp [tick, hskip] at h
      | ok msg =>
        cases hto : findToHeader msg.headers with
        | none => simp [tick, hskip, hto] at h
        | some to_email =>
          cases hbody : extractBodyText msg with
          | error e => simp [tick, hskip, hto, hbody] at h
          | ok content =>
            cases mr with
            | error e => simp [tick, hskip, hto, hbody] at h
            | ok resp =>
              cases hex : extract_email_data resp with
              | error e => simp [tick, hskip, hto, hbody, hex] at h
              | ok extracted =>
                cases hc : jsonGet extracted "city" with
                | error e => simp [tick, hskip, hto, hbody, hex, hc] at h
                | ok city =>
                  cases hv : jsonGet extracted "venue" with
                  | error e => simp [tick, hskip, hto, hbody, hex, hc, hv] at h
                  | ok venue =>
                    cases hd : jsonGet extracted "dates" with
                    | error e => simp [tick, hskip, hto, hbody, hex, hc, hv, hd] at h
                    | ok dates =>
                      cases rr with
                      | error e => simp [tick, hskip, hto, hbody, hex, hc, hv, hd] at h
                      | ok curr =>
                        cases wr with
                        | error e =>
                          simp [tick, hskip, hto, hbody, hex, hc, hv, hd] at h
                        | ok u =>
                          cases u
                          refine ⟨rfl, [Event.fetchFull latestId, Event.modelCall,
                            Event.sheetRead],
                            update_spreadsheet curr
                              [[.str to_email, city, venue, dates, .str "CONTACTED"]],
                            latestId, ?_⟩
                          simp [tick, hskip, hto, hbody, hex, hc, hv, hd]

/-- Witness for C5: a fully successful tick changes the persisted checkpoint,
and its trace indeed ends with a row write followed by the checkpoint save. -/
theorem c5_checkpoint_only_after_append_witness :
    okTickEnv.writeResult = .ok () ∧
    ∃ pre w id, (tick okTickEnv ⟨none, none⟩).2
      = pre ++ [Event.sheetWrite w, Event.checkpointSave id] :=
  c5_checkpoint_only_after_append okTickEnv ⟨none, none⟩ (Or.inl (by decide))

theorem tick_sheetWrite_shape (env : TickEnv) (s : LoopState) (w : SheetUpdate)
    (hw : Event.sheetWrite w ∈ (tick env s).2) :
    ∃ msg to_email city venue dates,
      env.fetchResult = .ok msg ∧
      findToHeader msg.headers = some to_email ∧
      w.values = [[.str to_email, city, venue, dates, .str "CONTACTED"]] := by
  rcases env with ⟨lr, fr, mr, rr, wr⟩
  cases lr with
  | none => simp [tick] at hw
  | some latestId =>
    by_cases hskip : s.lastMessageId = some latestId
    · simp [tick, hskip] at hw
    · cases fr with
      | error e => simp [tick, hskip] at hw
      | ok msg =>
        cases hto : findToHeader msg.headers with
        | none => simp [tick, hskip, hto] at hw
        | some to_email =>
          cases hbody : extractBodyText msg with
          | error e => simp [tick, hskip, hto, hbody] at hw
          | ok content =>
            cases mr with
            | error e => simp [tick, hskip, hto, hbody] at hw
            | ok resp =>
              cases hex : extract_email_data resp with
              | error e => simp [tick, hskip, hto, hbody, hex] at hw
              | ok extracted =>
                cases hc : jsonGet extracted "city" with
                | error e => simp [tick, hskip, hto, hbody, hex, hc] at hw
                | ok city =>
                  cases hv : jsonGet extracted "venue" with
                  | error e => simp [tick, hskip, hto, hbody, hex, hc, hv] at hw
                  | ok venue =>
                    cases hd : jsonGet extracted "dates" with
                    | error e => simp [tick, hskip, hto, hbody, hex, hc, hv, hd] at hw
                    | ok dates =>
                      cases rr with
                      | error e => simp [tick, hskip, hto, hbody, hex, hc, hv, hd] at hw
                      | ok curr =>
                        cases wr with
                        | error e =>
                          simp [tick, hskip, hto, hbody, hex, hc, hv, hd] at hw
                          exact ⟨msg, to_email, city, venue, dates, rfl, hto, by rw [hw]; rfl⟩
                        | ok u =>
                          simp [tick, hskip, hto, hbody, hex, hc, hv, hd] at hw
                          exact ⟨msg, to_email, city, venue, dates, rfl, hto, by rw [hw]; rfl⟩

/-- C9: every row the loop writes has as its first column the value of the
message's first `to` header (matched case-insensitively), and the `email`
field of the model's reply has no influence: two ticks whose model responses
parse to values with identical `city`, `venue` and `dates` lookups — in
particular responses differing only in `email`, or with `email` absent —
produce identical states and identical traces. -/
theorem c9_recipient_and_email_noninterference :
    (∀ (env : TickEnv) (s : LoopState) (w : SheetUpdate),
      Event.sheetWrite w ∈ (tick env s).2 →
      ∃ msg to_email city venue dates,
        env.fetchResult = .ok msg ∧
        findToHeader msg.headers = some to_email ∧
        w.values = [[.str to_email, city, venue, dates, .str "CONTACTED"]]) ∧
    (∀ (env : TickEnv) (s : LoopState) (r1 r2 : String) (v1 v2 : JValue),
      env.modelResponse = .ok r1 → jsonParse r1 = some v1 → jsonParse r2 = some v2 →
      jsonGet v1 "city" = jsonGet v2 "city" →
      jsonGet v1 "venue" = jsonGet v2 "venue" →
      jsonGet v1 "dates" = jsonGet v2 "dates" →
      tick env s = tick { env with modelResponse := .ok r2 } s) := by
  constructor
  · exact tick_sheetWrite_shape
  · intro env s r1 r2 v1 v2 hresp hp1 hp2 heqc heqv heqd
    rcases env with ⟨lr, fr, mr, rr, wr⟩
    simp at hresp
    subst hresp
    have hex1 : extract_email_data r1 = .ok v1 := by unfold extract_email_data; rw [hp1]
    have hex2 : extract_email_data r2 = .ok v2 := by unfold extract_email_data; rw [hp2]
    cases lr with
    | none => rfl
    | some latestId =>
      by_cases hskip : s.lastMessageId = some latestId
      · simp [tick, hskip]
      · cases fr with
        | error e => simp [tick, hskip]
        | ok msg =>
          cases hto : findToHeader msg.headers with
          | none => simp [tick, hskip, hto]
          | some to_email =>
            cases hbody : extractBodyText msg with
            | error e => simp [tick, hskip, hto, hbody]
            | ok content =>
              cases hc : jsonGet v1 "city" with
              | error e =>
                have hc2 : jsonGet v2 "city" = .error e := by rw [← heqc]; exact hc
                simp [tick, hskip, hto, hbody, hex1, hex2, hc, hc2]
              | ok city =>
                have hc2 : jsonGet v2 "city" = .ok city := by rw [← heqc]; exact hc
                cases hv : jsonGet v1 "venue" with
                | error e =>
                  have hv2 : jsonGet v2 "venue" = .error e := by rw [← heqv]; exact hv
                  simp [tick, hskip, hto, hbody, hex1, hex2, hc, hc2, hv, hv2]
                | ok venue =>
                  have hv2 : jsonGet v2 "venue" = .ok venue := by rw [← heqv]; exact hv
                  cases hd : jsonGet v1 "dates" with
                  | error e =>
                    have hd2 : jsonGet v2 "dates" = .error e := by rw [← heqd]; exact hd
                    simp [tick, hskip, hto, hbody, hex1, hex2, hc, hc2, hv, hv2, hd, hd2]
                  | ok dates =>
                    have hd2 : jsonGet v2 "dates" = .ok dates := by rw [← heqd]; exact hd
                    simp [tick, hskip, hto, hbody, hex1, hex2, hc, hc2, hv, hv2, hd, hd2]

/-- Witness for C9: dropping the `email` key from the model's reply leaves
the tick's outcome — state and trace — unchanged. -/
theorem c9_recipient_and_email_noninterference_witness :
    tick okTickEnv ⟨none, none⟩
      = tick { okTickEnv with modelResponse := .ok respNoEmailField } ⟨none, none⟩ :=
  c9_recipient_and_email_noninterference.2 okTickEnv ⟨none, none⟩ _ respNoEmailField
    (.obj [("email", .str "x@y.com"), ("city", .str "c"), ("venue", .str "v"),
      ("dates", .str "d")])
    (.obj [("city", .str "c"), ("venue", .str "v"), ("dates", .str "d")])
    rfl rfl rfl rfl rfl rfl

/-- C2 counterexample: a well-formed JSON response lacking the `dates` key
does not make the extraction step fail — `extract_email_data` returns the
parsed object unchanged (the `dates` lookup only fails later). -/
theorem c2_counterexample :
    extract_email_data respNoDates
      = .ok (.obj [("email", .str "client@example.com"), ("city", .str "Austin"),
          ("venue", .str "TBD")]) ∧
    jsonGet (.obj [("email", .str "client@example.com"), ("city", .str "Austin"),
        ("venue", .str "TBD")]) "dates" = .error (.keyError "dates") :=
  ⟨rfl, rfl⟩

/-- C2 amended: the extraction step fails with a parse error exactly when the
response is not valid JSON, and performs no key validation; a response that
parses but lacks the `dates` key fails only at the later field access, so no
row is ever written in that tick. -/
theorem c2_amended :
    (∀ r : String, extract_email_data r = .error .jsonDecodeError ↔ jsonParse r = none) ∧
    (∀ (r : String) (v : JValue), jsonParse r = some v → extract_email_data r = .ok v) ∧
    (∀ (env : TickEnv) (s : LoopState) (r : String) (v : JValue),
      env.modelResponse = .ok r → jsonParse r = some v →
      jsonGet v "dates" = .error (.keyError "dates") →
      ∀ w, Event.sheetWrite w ∉ (tick env s).2) := by
  refine ⟨?_, ?_, ?_⟩
  · intro r
    unfold extract_email_data
    cases hp : jsonParse r <;> simp
  · intro r v hp
    unfold extract_email_data
    rw [hp]
  · intro env s r v hresp hp hdates w
    rcases env with ⟨lr, fr, mr, rr, wr⟩
    simp at hresp
    subst hresp
    have hex : extract_email_data r = .ok v := by unfold extract_email_data; rw [hp]
    cases lr with
    | none => simp [tick]
    | some latestId =>
      by_cases hskip : s.lastMessageId = some latestId
      · simp [tick, hskip]
      · cases fr with
        | error e => simp [tick, hskip]
        | ok msg =>
          cases hto : findToHeader msg.headers with
          | none => simp [tick, hskip, hto]
          | some to_email =>
            cases hbody : extractBodyText msg with
            | error e => simp [tick, hskip, hto, hbody]
            | ok content =>
              cases hc : jsonGet v "city" with
              | error e => simp [tick, hskip, hto, hbody, hex, hc]
              | ok city =>
                cases hv : jsonGet v "venue" with
                | error e => simp [tick, hskip, hto, hbody, hex, hc, hv]
                | ok venue => simp [tick, hskip, hto, hbody, hex, hc, hv, hdates]

/-- Witness for C2 (amended): a non-JSON response yields the parse error, and
the tick fed the dates-less reply writes no row. -/
theorem c2_amended_witness :
    extract_email_data "not json" = .error .jsonDecodeError ∧
    Event.sheetWrite (update_spreadsheet [["Email"]]
        [[.str "x@y.com", .str "c", .str "v", .str "d", .str "CONTACTED"]])
      ∉ (tick respNoDatesEnv ⟨none, none⟩).2 :=
  ⟨(c2_amended.1 "not json").mpr rfl,
   c2_amended.2.2 respNoDatesEnv ⟨none, none⟩ respNoDates
     (.obj [("email", .str "client@example.com"), ("city", .str "Austin"),
        ("venue", .str "TBD")]) rfl rfl rfl _⟩

/-- C1 (code bug witness): from a synchronised state at `msg_1`, a tick that
sees `msg_2` and fails at the sheet update leaves the persistent checkpoint
at `msg_1` — but the in-memory pointer has already advanced to `msg_2`
(app.py:168, before any processing), so the next tick, with the mailbox's
latest id still `msg_2` and every collaborator healthy, performs no fetch, no
model call, no sheet access: the failed message is never retried within the
running process, contrary to the claim. -/
theorem c1_failed_append_not_retried :
    (tick failingAppendEnv ⟨some "msg_1", some "msg_1"⟩).1
        = ⟨some "msg_2", some "msg_1"⟩ ∧
    (tick failingAppendEnv ⟨some "msg_1", some "msg_1"⟩).2
        = [.fetchFull "msg_2", .modelCall, .sheetRead,
           .sheetWrite (update_spreadsheet [["Email"]]
             [[.str "x@y.com", .str "c", .str "v", .str "d", .str "CONTACTED"]])] ∧
    tick okTickEnv ⟨some "msg_2", some "msg_1"⟩ = (⟨some "msg_2", some "msg_1"⟩, []) :=
  ⟨rfl, rfl, rfl⟩

/-- C4: the end-to-end scenario — checkpoint absent, latest id `msg_2`, the
Austin booking email, the four-field model reply — appends exactly
`[client@example.com, Austin, TBD, Oct 1-3, CONTACTED]` at row 2 and then
persists checkpoint `msg_2`; and in every tick, any written row carries the
literal `CONTACTED` as its fifth (status) column. -/
theorem c4_scenario_row_and_checkpoint :
    tick scenarioEnv ⟨none, none⟩
      = (⟨some "msg_2", some "msg_2"⟩,
         [.fetchFull "msg_2", .modelCall, .sheetRead,
          .sheetWrite ⟨"Hold Grid!A2:E2", 2,
            [[.str "client@example.com", .str "Austin", .str "TBD", .str "Oct 1-3",
              .str "CONTACTED"]]⟩,
          .checkpointSave "msg_2"]) ∧
    (∀ (env : TickEnv) (s : LoopState) (w : SheetUpdate),
      Event.sheetWrite w ∈ (tick env s).2 →
      ∃ e c v d, w.values = [[e, c, v, d, JValue.str "CONTACTED"]]) := by
  constructor
  · rfl
  · intro env s w hw
    obtain ⟨msg, to_email, city, venue, dates, _, _, hvals⟩ :=
      tick_sheetWrite_shape env s w hw
    exact ⟨.str to_email, city, venue, dates, hvals⟩

/-- Witness for C4: the row written in the scenario tick indeed ends in the
literal `CONTACTED`. -/
theorem c4_scenario_row_and_checkpoint_witness :
    ∃ e c v d,
      (SheetUpdate.mk "Hold Grid!A2:E2" 2
        [[.str "client@example.com", .str "Austin", .str "TBD", .str "Oct 1-3",
          .str "CONTACTED"]]).values
        = [[e, c, v, d, JValue.str "CONTACTED"]] :=
  c4_scenario_row_and_checkpoint.2 scenarioEnv ⟨none, none⟩ _
    (List.mem_cons_of_mem _ (List.mem_cons_of_mem _ (List.mem_cons_of_mem _
      (List.mem_cons_self _ _))))

/-- C8 counterexample: with old checkpoint `msg_1` and new id `msg_2`, the
crash-observable file contents include the empty string and the partial write
`msg`, neither of which is the complete old or the complete new value. -/
theorem c8_counterexample :
    "" ∈ saveFileStates "msg_1" "msg_2" ∧ "" ≠ "msg_1" ∧ "" ≠ "msg_2" ∧
    "msg" ∈ saveFileStates "msg_1" "msg_2" ∧ "msg" ≠ "msg_1" ∧ "msg" ≠ "msg_2" := by
  refine ⟨by decide, by decide, by decide, by decide, by decide, by decide⟩

/-- C8 amended: the save is an in-place truncate-then-write, not atomic — a
crash concurrent with it leaves either the old value or some (possibly
empty, possibly partial) prefix of the new value, the full new value being
the final state. -/
theorem c8_amended (old new : String) :
    (saveFileStates old new).head? = some old ∧
    new ∈ saveFileStates old new ∧
    ∀ st ∈ saveFileStates old new, st = old ∨ ∃ k, st = String.mk (new.data.take k) := by
  refine ⟨rfl, ?_, ?_⟩
  · refine List.mem_cons_of_mem _ (List.mem_map.mpr
      ⟨new.length, List.mem_range.mpr (Nat.lt_succ_self _), ?_⟩)
    show String.mk (new.data.take new.length) = new
    have hlen : new.length = new.data.length := rfl
    rw [hlen, List.take_length]
  · intro st hst
    rcases List.mem_cons.mp hst with h | h
    · exact Or.inl h
    · rcases List.mem_map.mp h with ⟨k, _, hk⟩
      exact Or.inr ⟨k, hk.symm⟩

/-- Witness for C8 (amended): the partially written state `msg` of saving
`msg_2` over `msg_1` is a prefix of the new value, and the full new value is
among the observable states. -/
theorem c8_amended_witness :
    ("msg" = "msg_1" ∨ ∃ k, "msg" = String.mk ("msg_2".data.take k)) ∧
    "msg_2" ∈ saveFileStates "msg_1" "msg_2" :=
  ⟨(c8_amended "msg_1" "msg_2").2.2 "msg" (by decide),
   (c8_amended "msg_1" "msg_2").2.1⟩
